import Mathlib

/-!
Shallow embedding of the library-room-booking backend.

The embedded code consists of the three Netlify function handlers:
* `submitBookingRequest` (netlify/functions/submitBookingRequest.js),
* `getRooms` (the handler appended to app.js),
* `getRoomSchedules` (netlify/functions/getRoomSchedules.js).

Time instants are modelled as natural numbers counting milliseconds
(the JavaScript code compares `Date` values and their ISO-8601 strings,
whose order coincides with millisecond order).  A handler invocation
receives `dayStart`, the millisecond instant of today's local midnight
(what `new Date(y, m, d, H, M)` is built from), and `now`, the current
instant (`new Date()`); `dayStart ≤ now` is not needed by the code and
is not assumed.  The Supabase store is a record of the three tables;
select queries become list filters, `.order(col)` becomes a merge sort
on that column, `.single()` demands exactly one matching row, and an
insert appends a row whose generated id is the store's `nextId`.
-/

/-- A row of the `rooms` table (columns used by the handlers). -/
structure Room where
  id : Nat
  name : String
  access_group : String
  is_active : Bool
deriving DecidableEq, Repr

/-- A row of the `bookings` table: a confirmed occupancy record. -/
structure Booking where
  room_id : Nat
  student_id : String
  start_time : Nat
  end_time : Nat
deriving DecidableEq, Repr

/-- Status column of a `booking_requests` row. -/
inductive ReqStatus where
  | pending
  | approved
  | rejected
deriving DecidableEq, Repr

/-- A row of the `booking_requests` table. -/
structure BookingRequest where
  id : Nat
  student_id : String
  room_id : Nat
  start_time : Nat
  end_time : Nat
  status : ReqStatus
deriving DecidableEq, Repr

/-- The relational store behind the Supabase client.  `nextId` models the
database-generated identifier of the next inserted `booking_requests` row. -/
structure Store where
  rooms : List Room
  bookings : List Booking
  booking_requests : List BookingRequest
  nextId : Nat
deriving DecidableEq, Repr

/-- A parsed `"HH:MM"` clock reading (`start_time.split(':')` followed by
`parseInt` on both halves). -/
structure Clock where
  hours : Nat
  minutes : Nat
deriving DecidableEq, Repr

/-- The JSON body of a POST to `submitBookingRequest`.  A `none` field is an
absent key.  `start_time` is the caller's `"HH:MM"` string already split at
the colon and parsed. -/
structure SubmitBody where
  student_id : Option String
  room_id : Option Nat
  start_time : Option Clock
  duration : Option Int
deriving DecidableEq, Repr

/-- Outcome of the validation pipeline of `submitBookingRequest`, one
constructor per `return` site of the handler's `try` block. -/
inductive SubmitOutcome where
  | missingFields
  | invalidStudentId
  | invalidDuration
  | invalidRoom
  | inactiveRoom
  | startTimeInPast
  | roomAlreadyBooked
  | ok (request_id : Nat)
deriving DecidableEq, Repr

/-- HTTP status code attached to each outcome by the handler source:
200 on success, 409 for the booking conflict, 400 for every other
validation failure. -/
def statusCode : SubmitOutcome → Nat
  | .ok _ => 200
  | .roomAlreadyBooked => 409
  | _ => 400

/-- The JavaScript truthiness test `!student_id || !room_id || !start_time
|| !duration` on the parsed body: a field is falsy when absent, when the
string is empty, or when the number is zero. -/
def missingField (body : SubmitBody) : Bool :=
  (match body.student_id with | none => true | some s => s == "") ||
  (match body.room_id with | none => true | some r => r == 0) ||
  (match body.start_time with | none => true | some _ => false) ||
  (match body.duration with | none => true | some d => d == 0)

/-- The regular expression test `/^[0-9]{6,7}$/.test(student_id)`. -/
def validStudentId (s : String) : Bool :=
  (s.length == 6 || s.length == 7) && s.toList.all (fun c => c.isDigit)

/-- The instant built by `new Date(today.getFullYear(), today.getMonth(),
today.getDate(), parseInt(hours), parseInt(minutes))`: today's midnight
plus the parsed clock reading (JavaScript normalises an overflowing
clock by carrying into later days, which addition models exactly). -/
def startInstant (dayStart hours minutes : Nat) : Nat :=
  dayStart + (hours * 60 + minutes) * 60000

/-- The instant `new Date(startDateTime.getTime() + duration * 60000)`.
The duration has already been checked to lie in [30, 120], so the cast
to `Nat` is exact. -/
def endInstant (start : Nat) (duration : Int) : Nat :=
  start + duration.toNat * 60000

/-- The overlap filter sent to Supabase for the `bookings` table:
`.eq('room_id', rid).lt('start_time', endMs).gt('end_time', startMs)`. -/
def bookingConflict (rid startMs endMs : Nat) (b : Booking) : Bool :=
  b.room_id == rid && decide (b.start_time < endMs) && decide (b.end_time > startMs)

/-- The pending-request filter: same overlap window restricted to rows
with status `pending`.  The handler runs this query but never branches
on its result. -/
def pendingConflict (rid startMs endMs : Nat) (q : BookingRequest) : Bool :=
  q.room_id == rid && q.status == ReqStatus.pending &&
    decide (q.start_time < endMs) && decide (q.end_time > startMs)

/-- The `try` block of the `submitBookingRequest` handler, translated
check by check in source order: missing fields, student-id format,
duration range, room lookup (`.single()` fails unless exactly one row
matches), active flag, past start, confirmed-booking conflict, then the
insert of a `pending` row.  Returns the outcome and the updated store. -/
def submit (store : Store) (dayStart now : Nat) (body : SubmitBody) :
    SubmitOutcome × Store :=
  if missingField body then (.missingFields, store)
  else
    let sid := body.student_id.getD ""
    let rid := body.room_id.getD 0
    let clock := body.start_time.getD ⟨0, 0⟩
    let dur := body.duration.getD 0
    if ¬ validStudentId sid then (.invalidStudentId, store)
    else if dur < 30 ∨ dur > 120 then (.invalidDuration, store)
    else
      match store.rooms.filter (fun r => r.id == rid) with
      | [room] =>
        if ¬ room.is_active then (.inactiveRoom, store)
        else
          let startMs := startInstant dayStart clock.hours clock.minutes
          let endMs := endInstant startMs dur
          if startMs ≤ now then (.startTimeInPast, store)
          else
            let conflicts := store.bookings.filter (bookingConflict rid startMs endMs)
            if conflicts.length > 0 then (.roomAlreadyBooked, store)
            else
              let _pendingConflicts :=
                store.booking_requests.filter (pendingConflict rid startMs endMs)
              let newRequest : BookingRequest :=
                ⟨store.nextId, sid, rid, startMs, endMs, .pending⟩
              (.ok store.nextId,
               { store with
                   booking_requests := store.booking_requests ++ [newRequest],
                   nextId := store.nextId + 1 })
      | _ => (.invalidRoom, store)

/-- HTTP method of an incoming event. -/
inductive Method where
  | get
  | post
  | options
deriving DecidableEq, Repr

/-- Result of a full handler invocation: the CORS preflight reply, the
405 reply, or a validation outcome of the POST body. -/
inductive HttpOutcome where
  | preflight
  | methodNotAllowed
  | outcome (o : SubmitOutcome)
deriving DecidableEq, Repr

/-- Status code of a full handler invocation (200 for the empty
preflight reply, 405 for a non-POST method). -/
def httpStatus : HttpOutcome → Nat
  | .preflight => 200
  | .methodNotAllowed => 405
  | .outcome o => statusCode o

/-- The whole `submitBookingRequest` handler including the method
dispatch that precedes the `try` block. -/
def submitHandler (method : Method) (store : Store) (dayStart now : Nat)
    (body : SubmitBody) : HttpOutcome × Store :=
  match method with
  | .options => (.preflight, store)
  | .get => (.methodNotAllowed, store)
  | .post =>
    let r := submit store dayStart now body
    (.outcome r.1, r.2)

/-- One entry of the `getRooms` response body. -/
structure RoomStatus where
  id : Nat
  name : String
  is_available : Bool
deriving DecidableEq, Repr

/-- Column order used by the `.order('id')` clauses of the two read
handlers. -/
def roomLe (a b : Room) : Prop := a.id ≤ b.id

instance : DecidableRel roomLe := fun a b => Nat.decLe a.id b.id

instance : IsTotal Room roomLe := ⟨fun a b => Nat.le_total a.id b.id⟩

instance : IsTrans Room roomLe := ⟨fun _ _ _ => Nat.le_trans⟩

/-- Column order used by the `.order('start_time')` clause of
`getRoomSchedules`. -/
def bookingLe (a b : Booking) : Prop := a.start_time ≤ b.start_time

instance : DecidableRel bookingLe := fun a b => Nat.decLe a.start_time b.start_time

instance : IsTotal Booking bookingLe := ⟨fun a b => Nat.le_total a.start_time b.start_time⟩

instance : IsTrans Booking bookingLe := ⟨fun _ _ _ => Nat.le_trans⟩

/-- The rooms query shared by both read handlers:
`.select(...).eq('is_active', true).order('id')`. -/
def activeRooms (store : Store) : List Room :=
  List.insertionSort roomLe (store.rooms.filter (fun r => r.is_active))

/-- The `getRooms` handler body: active rooms ordered by id, a booking
is current when `end_time >= now` and `start_time <= now`, and a room is
available iff its id is not among the current bookings' room ids. -/
def getRooms (store : Store) (now : Nat) : List RoomStatus :=
  let rooms := activeRooms store
  let activeBookings := store.bookings.filter
    (fun b => decide (b.end_time ≥ now) && decide (b.start_time ≤ now))
  let occupiedRoomIds := activeBookings.map (fun b => b.room_id)
  rooms.map (fun room =>
    ⟨room.id, room.name, ¬ occupiedRoomIds.contains room.id⟩)

/-- One booking entry of the `getRoomSchedules` response: the handler
copies `student_id`, `start_time` and `end_time` from the stored row. -/
structure SchedBooking where
  student_id : String
  start_time : Nat
  end_time : Nat
deriving DecidableEq, Repr

/-- One room entry of the `getRoomSchedules` response. -/
structure RoomSchedule where
  id : Nat
  name : String
  bookings : List SchedBooking
deriving DecidableEq, Repr

/-- The `getRoomSchedules` response body; `date` is the calendar day of
the invocation, modelled by its midnight instant. -/
structure ScheduleResponse where
  date : Nat
  rooms : List RoomSchedule
deriving DecidableEq, Repr

/-- Projection of a stored booking into a schedule entry (the object
literal pushed by the grouping loop, `student_id` included). -/
def toSchedBooking (b : Booking) : SchedBooking :=
  ⟨b.student_id, b.start_time, b.end_time⟩

/-- One step of the `bookings.forEach` grouping loop: create the room's
bucket on first sight, then push the entry at its end. -/
def pushByRoom (acc : List (Nat × List SchedBooking)) (b : Booking) :
    List (Nat × List SchedBooking) :=
  if acc.any (fun e => e.1 == b.room_id) then
    acc.map (fun e =>
      if e.1 == b.room_id then (e.1, e.2 ++ [toSchedBooking b]) else e)
  else
    acc ++ [(b.room_id, [toSchedBooking b])]

/-- The `bookingsByRoom` object built by the grouping loop. -/
def groupByRoom (bs : List Booking) : List (Nat × List SchedBooking) :=
  bs.foldl pushByRoom []

/-- The lookup `bookingsByRoom[room.id] || []`. -/
def lookupRoom (acc : List (Nat × List SchedBooking)) (rid : Nat) :
    List SchedBooking :=
  match acc.find? (fun e => e.1 == rid) with
  | some e => e.2
  | none => []

/-- The bookings query of `getRoomSchedules`:
`.gte('end_time', todayStart).lte('start_time', todayEnd)
.order('start_time')`, with the display window 08:00–19:00 of today. -/
def windowBookings (store : Store) (dayStart : Nat) : List Booking :=
  List.insertionSort bookingLe (store.bookings.filter
    (fun b => decide (b.end_time ≥ dayStart + 8 * 3600000) &&
              decide (b.start_time ≤ dayStart + 19 * 3600000)))

/-- The `getRoomSchedules` handler body: display window 08:00–19:00 of
today, active rooms ordered by id, bookings meeting the window ordered
by start time, grouped by room and attached to each room entry. -/
def getRoomSchedules (store : Store) (dayStart : Nat) : ScheduleResponse :=
  let rooms := activeRooms store
  let bookings := windowBookings store dayStart
  let bookingsByRoom := groupByRoom bookings
  { date := dayStart,
    rooms := rooms.map (fun room =>
      ⟨room.id, room.name, lookupRoom bookingsByRoom room.id⟩) }

/-- The read handlers perform only select queries; as store transitions
they return the store unchanged.  `getRoomsStep` is the `getRooms`
invocation seen as a transition. -/
def getRoomsStep (store : Store) (now : Nat) : List RoomStatus × Store :=
  (getRooms store now, store)

/-- The `getRoomSchedules` invocation seen as a store transition. -/
def getRoomSchedulesStep (store : Store) (dayStart : Nat) :
    ScheduleResponse × Store :=
  (getRoomSchedules store dayStart, store)

/-- The validation pipeline as the specification words it: the first
failing rule in the order MissingFields, InvalidStudentId,
InvalidDuration, InvalidRoom (no room with the given id exists),
InactiveRoom (no such room is active), StartTimeInPast,
RoomAlreadyBooked determines the rejection reason.  This definition is
written from the specification text and is compared against `submit`,
which is written from the handler source. -/
def specValidationOrder (store : Store) (dayStart now : Nat) (body : SubmitBody) :
    SubmitOutcome :=
  if missingField body then .missingFields
  else
    let sid := body.student_id.getD ""
    let rid := body.room_id.getD 0
    let clock := body.start_time.getD ⟨0, 0⟩
    let dur := body.duration.getD 0
    if ¬ validStudentId sid then .invalidStudentId
    else if ¬ (30 ≤ dur ∧ dur ≤ 120) then .invalidDuration
    else if ¬ store.rooms.any (fun r => r.id == rid) then .invalidRoom
    else if ¬ store.rooms.any (fun r => r.id == rid && r.is_active) then .inactiveRoom
    else
      let startMs := startInstant dayStart clock.hours clock.minutes
      let endMs := endInstant startMs dur
      if startMs ≤ now then .startTimeInPast
      else if store.bookings.any (bookingConflict rid startMs endMs) then .roomAlreadyBooked
      else .ok store.nextId

/-! ### Concrete fixtures used by counterexamples and witnesses -/

/-- A single active room. -/
def roomA : Room := ⟨1, "Room A", "students", true⟩

/-- A store holding one active room and nothing else. -/
def emptyStore : Store := ⟨[roomA], [], [], 0⟩

/-- A valid submission for room 1, 10:00–11:00. -/
def bodyA : SubmitBody := ⟨some "123456", some 1, some ⟨10, 0⟩, some 60⟩

/-- A valid submission for room 1, 10:30–11:30, overlapping `bodyA`. -/
def bodyB : SubmitBody := ⟨some "654321", some 1, some ⟨10, 30⟩, some 60⟩

/-- A store whose one confirmed booking for room 1 ends exactly at 11:00. -/
def storeTouch : Store := ⟨[roomA], [⟨1, "111111", 36000000, 39600000⟩], [], 0⟩

/-- A valid submission for room 1 starting 23:00 with the maximal
duration of 120 minutes, whose end instant falls past midnight. -/
def lateBody : SubmitBody := ⟨some "123456", some 1, some ⟨23, 0⟩, some 120⟩

/-- A submission whose student id has 5 digits and whose duration 10 is
out of range: it fails both rule 2 and rule 3. -/
def bodyBad : SubmitBody := ⟨some "12345", some 1, some ⟨10, 0⟩, some 10⟩

/-- A valid submission for room 1 at the clock minute 00:10. -/
def bodyMin : SubmitBody := ⟨some "123456", some 1, some ⟨0, 10⟩, some 60⟩

/-- A store identical to `storeTouch` except for the booking's
student id. -/
def storeLeak : Store := ⟨[roomA], [⟨1, "222222", 36000000, 39600000⟩], [], 0⟩

/-- A store like `emptyStore` but holding a pending request that
overlaps the 10:00–11:00 slot of room 1. -/
def storePend : Store :=
  ⟨[roomA], [], [⟨5, "999999", 1, 36000000, 39600000, ReqStatus.pending⟩], 0⟩

/-! ### Helper lemmas -/

lemma length_filter_pos_iff_any {α : Type} (l : List α) (p : α → Bool) :
    0 < (l.filter p).length ↔ l.any p = true := by
  rw [List.length_pos, Ne, List.filter_eq_nil_iff, List.any_eq_true]
  push_neg
  simp

lemma filter_id_single (l : List Room) (rid : Nat)
    (hnd : (l.map Room.id).Nodup) :
    l.filter (fun r => r.id == rid) = [] ∨
      ∃ room, l.filter (fun r => r.id == rid) = [room] := by
  rcases hf : l.filter (fun r => r.id == rid) with _ | ⟨a, t⟩
  · exact Or.inl hf
  rcases t with _ | ⟨b, t2⟩
  · exact Or.inr ⟨a, hf⟩
  exfalso
  have hsub : List.Sublist (a :: b :: t2) l := hf ▸ l.filter_sublist
  have hnd2 : ((a :: b :: t2).map Room.id).Nodup :=
    List.Nodup.sublist (hsub.map Room.id) hnd
  have ha : a ∈ l.filter (fun r => r.id == rid) := by rw [hf]; simp
  have hb : b ∈ l.filter (fun r => r.id == rid) := by rw [hf]; simp
  have ha2 : a.id = rid := by simpa using (List.mem_filter.mp ha).2
  have hb2 : b.id = rid := by simpa using (List.mem_filter.mp hb).2
  have : a.id ≠ b.id := by
    simp only [List.map_cons, List.nodup_cons, List.mem_cons, List.mem_map] at hnd2
    exact fun h => hnd2.1 (Or.inl h)
  omega

lemma missingField_concrete (sid : String) (rid h m : Nat) (dur : Int)
    (hsid : validStudentId sid = true) (hdur : 30 ≤ dur) (hrid : rid ≠ 0) :
    missingField ⟨some sid, some rid, some ⟨h, m⟩, some dur⟩ = false := by
  have hne : sid ≠ "" := by
    intro he
    rw [he] at hsid
    simp [validStudentId] at hsid
  simp [missingField, hne, hrid]
  omega

lemma submit_eval (store : Store) (room : Room) (dayStart now : Nat)
    (sid : String) (rid h m : Nat) (dur : Int)
    (hsid : validStudentId sid = true)
    (hdur : 30 ≤ dur ∧ dur ≤ 120)
    (hrid : rid ≠ 0)
    (hroom : store.rooms.filter (fun r => r.id == rid) = [room])
    (hact : room.is_active = true) :
    submit store dayStart now ⟨some sid, some rid, some ⟨h, m⟩, some dur⟩ =
      (if startInstant dayStart h m ≤ now then (SubmitOutcome.startTimeInPast, store)
       else if 0 < (store.bookings.filter (bookingConflict rid
           (startInstant dayStart h m)
           (endInstant (startInstant dayStart h m) dur))).length then
         (SubmitOutcome.roomAlreadyBooked, store)
       else (SubmitOutcome.ok store.nextId,
         { store with
             booking_requests := store.booking_requests ++
               [⟨store.nextId, sid, rid, startInstant dayStart h m,
                 endInstant (startInstant dayStart h m) dur, ReqStatus.pending⟩],
             nextId := store.nextId + 1 })) := by
  have hmf := missingField_concrete sid rid h m dur hsid hdur.1 hrid
  have hd : ¬ ((dur : Int) < 30 ∨ dur > 120) := by omega
  simp only [submit, hmf, Bool.false_eq_true, if_false, Option.getD_some, hsid,
    not_true_eq_false, hd, hroom, hact, if_neg, GT.gt]

lemma lookupRoom_pushByRoom (acc : List (Nat × List SchedBooking)) (b : Booking)
    (rid : Nat) :
    lookupRoom (pushByRoom acc b) rid =
      if rid = b.room_id then lookupRoom acc rid ++ [toSchedBooking b]
      else lookupRoom acc rid := by
  unfold pushByRoom
  by_cases hany : acc.any (fun e => e.1 == b.room_id) = true
  · rw [if_pos hany]
    unfold lookupRoom
    rw [List.find?_map]
    have hpf : ((fun e : Nat × List SchedBooking => e.1 == rid) ∘
        (fun e => if e.1 == b.room_id then (e.1, e.2 ++ [toSchedBooking b]) else e)) =
        (fun e : Nat × List SchedBooking => e.1 == rid) := by
      funext e
      by_cases he : e.1 = b.room_id <;> simp [he]
    rw [hpf]
    rcases hfind : acc.find? (fun e => e.1 == rid) with _ | e <;> rw [hfind]
    · rw [List.find?_eq_none] at hfind
      have heq : rid ≠ b.room_id := by
        intro h2
        rw [List.any_eq_true] at hany
        obtain ⟨x, hx, hpx⟩ := hany
        apply hfind x hx
        simp only [h2]
        exact hpx
      simp [heq]
    · have he : e.1 = rid := by simpa using List.find?_some hfind
      by_cases heq : rid = b.room_id
      · simp [he, heq]
      · simp [he, heq]
  · rw [if_neg hany]
    unfold lookupRoom
    rw [List.find?_append]
    rcases hfind : acc.find? (fun e => e.1 == rid) with _ | e <;> rw [hfind]
    · simp only [Option.none_or]
      by_cases heq : rid = b.room_id
      · subst heq
        simp [List.find?_cons]
      · simp [List.find?_cons, Ne.symm heq, heq]
    · have heq : rid ≠ b.room_id := by
        intro heq2
        rw [Bool.not_eq_true, List.any_eq_false] at hany
        have hm := hany e (List.mem_of_find?_eq_some hfind)
        have he : e.1 = rid := by simpa using List.find?_some hfind
        simp [he, heq2] at hm
      rw [if_neg heq]
      rfl

lemma lookupRoom_groupByRoom_aux (bs : List Booking)
    (acc : List (Nat × List SchedBooking)) (rid : Nat) :
    lookupRoom (bs.foldl pushByRoom acc) rid =
      lookupRoom acc rid ++
        (bs.filter (fun b => b.room_id == rid)).map toSchedBooking := by
  induction bs generalizing acc with
  | nil => simp
  | cons b bs ih =>
    rw [List.foldl_cons, ih, lookupRoom_pushByRoom]
    by_cases heq : rid = b.room_id
    · simp [heq, List.filter_cons]
    · have : (b.room_id == rid) = false := by simp [Ne.symm heq]
      simp [heq, List.filter_cons, this]

lemma lookupRoom_groupByRoom (bs : List Booking) (rid : Nat) :
    lookupRoom (groupByRoom bs) rid =
      (bs.filter (fun b => b.room_id == rid)).map toSchedBooking := by
  unfold groupByRoom
  rw [lookupRoom_groupByRoom_aux]
  simp [lookupRoom]

lemma bookingConflict_iff (rid s e : Nat) (b : Booking) :
    bookingConflict rid s e b = true ↔
      b.room_id = rid ∧ b.start_time < e ∧ b.end_time > s := by
  simp [bookingConflict, and_assoc]

lemma conflict_exists_iff (l : List Booking) (rid s e : Nat) :
    (0 < (l.filter (bookingConflict rid s e)).length) ↔
      ∃ b ∈ l, b.room_id = rid ∧ b.start_time < e ∧ b.end_time > s := by
  rw [length_filter_pos_iff_any, List.any_eq_true]
  constructor
  · rintro ⟨b, hb, hc⟩
    exact ⟨b, hb, (bookingConflict_iff rid s e b).mp hc⟩
  · rintro ⟨b, hb, hc⟩
    exact ⟨b, hb, (bookingConflict_iff rid s e b).mpr hc⟩

lemma submit_cases (store : Store) (dayStart now : Nat) (body : SubmitBody) :
    (∃ q : BookingRequest, q.status = ReqStatus.pending ∧ q.id = store.nextId ∧
      (store.bookings.filter (bookingConflict q.room_id q.start_time q.end_time)).length = 0 ∧
      submit store dayStart now body =
        (SubmitOutcome.ok store.nextId,
         { store with
             booking_requests := store.booking_requests ++ [q],
             nextId := store.nextId + 1 })) ∨
    ((submit store dayStart now body).2 = store ∧
      ∀ i, (submit store dayStart now body).1 ≠ SubmitOutcome.ok i) := by
  by_cases h1 : missingField body = true
  · right; simp [submit, h1]
  · by_cases h2 : validStudentId (body.student_id.getD "") = true
    · by_cases h3 : (body.duration.getD 0) < 30 ∨ (body.duration.getD 0) > 120
      · right; simp [submit, h1, h2, h3]
      · rcases hf : store.rooms.filter (fun r => r.id == body.room_id.getD 0) with
          _ | ⟨room, t⟩
        · right; simp [submit, h1, h2, h3, hf]
        · rcases t with _ | ⟨room2, t2⟩
          · by_cases h4 : room.is_active = true
            · by_cases h5 : startInstant dayStart (body.start_time.getD ⟨0, 0⟩).hours
                  (body.start_time.getD ⟨0, 0⟩).minutes ≤ now
              · right; simp [submit, h1, h2, h3, hf, h4, h5]
              · by_cases h6 : 0 < (store.bookings.filter (bookingConflict
                    (body.room_id.getD 0)
                    (startInstant dayStart (body.start_time.getD ⟨0, 0⟩).hours
                      (body.start_time.getD ⟨0, 0⟩).minutes)
                    (endInstant (startInstant dayStart (body.start_time.getD ⟨0, 0⟩).hours
                      (body.start_time.getD ⟨0, 0⟩).minutes) (body.duration.getD 0)))).length
                · right
                  constructor
                  · simp [submit, h1, h2, h3, hf, h4, h5, h6]
                  · intro i
                    simp [submit, h1, h2, h3, hf, h4, h5, h6]
                · left
                  refine ⟨⟨store.nextId, body.student_id.getD "", body.room_id.getD 0,
                    startInstant dayStart (body.start_time.getD ⟨0, 0⟩).hours
                      (body.start_time.getD ⟨0, 0⟩).minutes,
                    endInstant (startInstant dayStart (body.start_time.getD ⟨0, 0⟩).hours
                      (body.start_time.getD ⟨0, 0⟩).minutes) (body.duration.getD 0),
                    ReqStatus.pending⟩, rfl, rfl, by dsimp only; omega, ?_⟩
                  simp [submit, h1, h2, h3, hf, h4, h5, h6]
            · right; simp [submit, h1, h2, h3, hf, h4]
          · right; simp [submit, h1, h2, h3, hf]
    · right; simp [submit, h1, h2]

lemma submit_fst_requests_irrelevant (rooms : List Room) (bookings : List Booking)
    (q1 q2 : List BookingRequest) (nextId : Nat) (dayStart now : Nat)
    (body : SubmitBody) :
    (submit ⟨rooms, bookings, q1, nextId⟩ dayStart now body).1 =
    (submit ⟨rooms, bookings, q2, nextId⟩ dayStart now body).1 := by
  by_cases h1 : missingField body = true
  · simp [submit, h1]
  · by_cases h2 : validStudentId (body.student_id.getD "") = true
    · by_cases h3 : body.duration.getD 0 < 30 ∨ body.duration.getD 0 > 120
      · simp [submit, h1, h2, h3]
      · rcases hf : rooms.filter (fun r => r.id == body.room_id.getD 0) with _ | ⟨room, t⟩
        · simp [submit, h1, h2, h3, hf]
        · rcases t with _ | ⟨room2, t2⟩
          · by_cases h4 : room.is_active = true
            · by_cases h5 : startInstant dayStart (body.start_time.getD ⟨0, 0⟩).hours
                  (body.start_time.getD ⟨0, 0⟩).minutes ≤ now
              · simp [submit, h1, h2, h3, hf, h4, h5]
              · by_cases h6 : 0 < (bookings.filter (bookingConflict (body.room_id.getD 0)
                    (startInstant dayStart (body.start_time.getD ⟨0, 0⟩).hours
                      (body.start_time.getD ⟨0, 0⟩).minutes)
                    (endInstant (startInstant dayStart (body.start_time.getD ⟨0, 0⟩).hours
                      (body.start_time.getD ⟨0, 0⟩).minutes) (body.duration.getD 0)))).length
                · simp [submit, h1, h2, h3, hf, h4, h5, h6]
                · simp [submit, h1, h2, h3, hf, h4, h5, h6]
            · simp [submit, h1, h2, h3, hf, h4]
          · simp [submit, h1, h2, h3, hf]
    · simp [submit, h1, h2]

lemma statusCode_eq_200 (o : SubmitOutcome) :
    statusCode o = 200 ↔ ∃ i, o = SubmitOutcome.ok i := by
  cases o <;> simp [statusCode]

/-! ### Claim theorems -/

/-- C1, counterexample: the no-double-booking invariant fails already for
a sequential pair of submissions.  Starting from a store with one active
room and no confirmed bookings, the submission 10:00–11:00 and then the
submission 10:30–11:30 for the same room are both accepted (the conflict
check consults only the `bookings` table, and approval of requests
happens outside `submit`), and the two persisted intervals overlap under
the half-open predicate. -/
theorem c1_counterexample :
    (submit emptyStore 0 1 bodyA).1 = SubmitOutcome.ok 0 ∧
    (submit (submit emptyStore 0 1 bodyA).2 0 1 bodyB).1 = SubmitOutcome.ok 1 ∧
    (submit (submit emptyStore 0 1 bodyA).2 0 1 bodyB).2.booking_requests =
      [⟨0, "123456", 1, 36000000, 39600000, ReqStatus.pending⟩,
       ⟨1, "654321", 1, 37800000, 41400000, ReqStatus.pending⟩] ∧
    (36000000 < 41400000 ∧ 37800000 < 39600000) := by
  decide

/-- C1, amended: any accepted submission persists one pending request
whose interval overlaps no confirmed booking for its room present in the
store at submission time.  Two accepted submissions may still overlap
each other, since the handler never rejects on pending-request
conflicts; mutual exclusion among confirmed bookings is delegated to the
out-of-scope approval workflow. -/
theorem c1_accepted_request_clears_bookings (store : Store) (dayStart now : Nat)
    (body : SubmitBody) (i : Nat)
    (hok : (submit store dayStart now body).1 = SubmitOutcome.ok i) :
    ∃ q : BookingRequest,
      (submit store dayStart now body).2 =
        { store with
            booking_requests := store.booking_requests ++ [q],
            nextId := store.nextId + 1 } ∧
      q.status = ReqStatus.pending ∧
      ∀ b ∈ store.bookings, b.room_id = q.room_id →
        ¬ (b.start_time < q.end_time ∧ q.start_time < b.end_time) := by
  rcases submit_cases store dayStart now body with ⟨q, hst, _, hlen, heq⟩ | ⟨_, hne⟩
  · refine ⟨q, by rw [heq], hst, ?_⟩
    intro b hb hbid hover
    have hpos : 0 < (store.bookings.filter
        (bookingConflict q.room_id q.start_time q.end_time)).length :=
      (conflict_exists_iff _ _ _ _).mpr ⟨b, hb, hbid, hover.1, hover.2⟩
    omega
  · exact absurd hok (hne i)

/-- C1, witness for the amended theorem at a concrete accepted input. -/
theorem c1_witness :
    ∃ q : BookingRequest,
      (submit emptyStore 0 1 bodyA).2 =
        { emptyStore with
            booking_requests := emptyStore.booking_requests ++ [q],
            nextId := emptyStore.nextId + 1 } ∧
      q.status = ReqStatus.pending ∧
      ∀ b ∈ emptyStore.bookings, b.room_id = q.room_id →
        ¬ (b.start_time < q.end_time ∧ q.start_time < b.end_time) :=
  c1_accepted_request_clears_bookings emptyStore 0 1 bodyA 0 (by decide)

/-- C2: once a submission reaches the conflict check (all format rules
pass, the room is active and the start lies in the future), it is
rejected with RoomAlreadyBooked exactly when some confirmed booking for
the room satisfies `start_time < endInstant` and `end_time >
startInstant`; a booking merely touching an endpoint does not satisfy
the predicate. -/
theorem c2_conflict_iff (store : Store) (room : Room) (dayStart now : Nat)
    (sid : String) (rid h m : Nat) (dur : Int)
    (hsid : validStudentId sid = true)
    (hdur : 30 ≤ dur ∧ dur ≤ 120)
    (hrid : rid ≠ 0)
    (hroom : store.rooms.filter (fun r => r.id == rid) = [room])
    (hact : room.is_active = true)
    (hfut : now < startInstant dayStart h m) :
    ((submit store dayStart now ⟨some sid, some rid, some ⟨h, m⟩, some dur⟩).1 =
        SubmitOutcome.roomAlreadyBooked ↔
      ∃ b ∈ store.bookings, b.room_id = rid ∧
        b.start_time < endInstant (startInstant dayStart h m) dur ∧
        b.end_time > startInstant dayStart h m) := by
  rw [submit_eval store room dayStart now sid rid h m dur hsid hdur hrid hroom hact]
  rw [if_neg (by omega : ¬ startInstant dayStart h m ≤ now)]
  by_cases hc : 0 < (store.bookings.filter (bookingConflict rid
      (startInstant dayStart h m)
      (endInstant (startInstant dayStart h m) dur))).length
  · rw [if_pos hc]
    exact ⟨fun _ => (conflict_exists_iff _ _ _ _).mp hc, fun _ => rfl⟩
  · rw [if_neg hc]
    constructor
    · intro habs
      simp at habs
    · intro hex
      exact absurd ((conflict_exists_iff _ _ _ _).mpr hex) hc

/-- C2, witness: with a confirmed booking 10:00–11:00 for room 1 and an
otherwise valid request starting exactly at 11:00, the conflict
characterisation applies; its right-hand side is false there, so the
touching request is not rejected as a conflict. -/
theorem c2_witness :
    ((submit storeTouch 0 1 ⟨some "123456", some 1, some ⟨11, 0⟩, some 60⟩).1 =
        SubmitOutcome.roomAlreadyBooked ↔
      ∃ b ∈ storeTouch.bookings, b.room_id = 1 ∧
        b.start_time < endInstant (startInstant 0 11 0) 60 ∧
        b.end_time > startInstant 0 11 0) :=
  c2_conflict_iff storeTouch roomA 0 1 "123456" 1 11 0 60 (by decide)
    (by decide) (by decide) (by decide) (by decide) (by decide)

/-- C6: once a submission reaches the start-time check (all format rules
pass and the room is active), it is rejected with StartTimeInPast
exactly when `startInstant ≤ now`; strict futurity is required to
pass. -/
theorem c6_past_iff (store : Store) (room : Room) (dayStart now : Nat)
    (sid : String) (rid h m : Nat) (dur : Int)
    (hsid : validStudentId sid = true)
    (hdur : 30 ≤ dur ∧ dur ≤ 120)
    (hrid : rid ≠ 0)
    (hroom : store.rooms.filter (fun r => r.id == rid) = [room])
    (hact : room.is_active = true) :
    ((submit store dayStart now ⟨some sid, some rid, some ⟨h, m⟩, some dur⟩).1 =
        SubmitOutcome.startTimeInPast ↔
      startInstant dayStart h m ≤ now) := by
  rw [submit_eval store room dayStart now sid rid h m dur hsid hdur hrid hroom hact]
  by_cases hp : startInstant dayStart h m ≤ now
  · rw [if_pos hp]
    exact ⟨fun _ => hp, fun _ => rfl⟩
  · rw [if_neg hp]
    constructor
    · intro habs
      by_cases hc : 0 < (store.bookings.filter (bookingConflict rid
          (startInstant dayStart h m)
          (endInstant (startInstant dayStart h m) dur))).length
      · rw [if_pos hc] at habs
        simp at habs
      · rw [if_neg hc] at habs
        simp at habs
    · intro hle
      exact absurd hle hp

/-- C6, witness: at `now` = 00:10:00.000, a submission whose start clock
is the current clock minute 00:10 is rejected as StartTimeInPast. -/
theorem c6_witness :
    (submit emptyStore 0 600000 bodyMin).1 = SubmitOutcome.startTimeInPast :=
  (c6_past_iff emptyStore roomA 0 600000 "123456" 1 0 10 60 (by decide)
    (by decide) (by decide) (by decide) (by decide)).mpr (by decide)

/-- C4, counterexample: an otherwise fully valid submission starting at
23:00 with duration 120 (submitted at 22:00) is accepted and persists a
request whose end instant 90000000 lies past the end of the current
calendar date (86400000), contradicting the part of the claim that puts
both the start and the end instant on the submission date. -/
theorem c4_counterexample :
    (submit emptyStore 0 79200000 lateBody).1 = SubmitOutcome.ok 0 ∧
    (submit emptyStore 0 79200000 lateBody).2.booking_requests =
      [⟨0, "123456", 1, 82800000, 90000000, ReqStatus.pending⟩] ∧
    ¬ (90000000 < 0 + 86400000) := by
  decide

/-- C4, amended: a submission with all four fields present, a valid 6–7
digit student id, a duration in [30, 120], an existing active room, a
well-formed HH:MM start clock, a strictly future start instant and no
overlapping confirmed booking succeeds with HTTP 200 and persists one
pending request with interval [start, start + duration); the start
instant lies on the current calendar date (the caller's date is never
read — only the clock is combined with today), while the end instant is
start + duration and may fall past midnight. -/
theorem c4_valid_submission_succeeds (store : Store) (room : Room)
    (dayStart now : Nat) (sid : String) (rid h m : Nat) (dur : Int)
    (hsid : validStudentId sid = true)
    (hdur : 30 ≤ dur ∧ dur ≤ 120)
    (hrid : rid ≠ 0)
    (hroom : store.rooms.filter (fun r => r.id == rid) = [room])
    (hact : room.is_active = true)
    (hfut : now < startInstant dayStart h m)
    (hnoconf : ∀ b ∈ store.bookings, b.room_id = rid →
      ¬ (b.start_time < endInstant (startInstant dayStart h m) dur ∧
         b.end_time > startInstant dayStart h m))
    (hh : h < 24) (hm2 : m < 60) :
    submit store dayStart now ⟨some sid, some rid, some ⟨h, m⟩, some dur⟩ =
      (SubmitOutcome.ok store.nextId,
       { store with
           booking_requests := store.booking_requests ++
             [⟨store.nextId, sid, rid, startInstant dayStart h m,
               endInstant (startInstant dayStart h m) dur, ReqStatus.pending⟩],
           nextId := store.nextId + 1 }) ∧
    dayStart ≤ startInstant dayStart h m ∧
    startInstant dayStart h m < dayStart + 86400000 := by
  have hlen : ¬ 0 < (store.bookings.filter (bookingConflict rid
      (startInstant dayStart h m)
      (endInstant (startInstant dayStart h m) dur))).length := by
    rw [conflict_exists_iff]
    rintro ⟨b, hb, hbid, h1, h2⟩
    exact hnoconf b hb hbid ⟨h1, h2⟩
  refine ⟨?_, ?_, ?_⟩
  · rw [submit_eval store room dayStart now sid rid h m dur hsid hdur hrid hroom hact]
    rw [if_neg (by omega : ¬ startInstant dayStart h m ≤ now), if_neg hlen]
  · unfold startInstant
    omega
  · unfold startInstant
    omega

/-- C4, witness for the amended theorem: the 10:00–11:00 submission into
the empty store succeeds, is persisted as stated, and starts on the
current date. -/
theorem c4_witness :
    submit emptyStore 0 1 bodyA =
      (SubmitOutcome.ok emptyStore.nextId,
       { emptyStore with
           booking_requests := emptyStore.booking_requests ++
             [⟨emptyStore.nextId, "123456", 1, startInstant 0 10 0,
               endInstant (startInstant 0 10 0) 60, ReqStatus.pending⟩],
           nextId := emptyStore.nextId + 1 }) ∧
    0 ≤ startInstant 0 10 0 ∧
    startInstant 0 10 0 < 0 + 86400000 :=
  c4_valid_submission_succeeds emptyStore roomA 0 1 "123456" 1 10 0 60
    (by decide) (by decide) (by decide) (by decide) (by decide) (by decide)
    (by decide) (by decide) (by decide)

/-- C5: provided room ids are unique (the data model declares the Room
identifier unique), the outcome of `submit` coincides with the
specification's first-failing-rule pipeline in the order MissingFields,
InvalidStudentId, InvalidDuration, InvalidRoom, InactiveRoom,
StartTimeInPast, RoomAlreadyBooked, with InvalidRoom and InactiveRoom as
two distinct reasons. -/
theorem c5_first_failing_rule (store : Store) (dayStart now : Nat) (body : SubmitBody)
    (hnd : (store.rooms.map Room.id).Nodup) :
    (submit store dayStart now body).1 = specValidationOrder store dayStart now body := by
  by_cases h1 : missingField body = true
  · simp [submit, specValidationOrder, h1]
  · by_cases h2 : validStudentId (body.student_id.getD "") = true
    · by_cases h3 : 30 ≤ body.duration.getD 0 ∧ body.duration.getD 0 ≤ 120
      · have hc : ¬ (body.duration.getD 0 < 30 ∨ body.duration.getD 0 > 120) := by omega
        rcases filter_id_single store.rooms (body.room_id.getD 0) hnd with hnil | ⟨room, hone⟩
        · have hany : store.rooms.any (fun r => r.id == body.room_id.getD 0) = false := by
            rw [List.any_eq_false]
            rw [List.filter_eq_nil_iff] at hnil
            exact hnil
          simp [submit, specValidationOrder, h1, h2, h3, hc, hnil, hany]
        · have hmem := List.mem_filter.mp (by rw [hone]; exact List.mem_singleton_self room :
            room ∈ store.rooms.filter (fun r => r.id == body.room_id.getD 0))
          have hany : store.rooms.any (fun r => r.id == body.room_id.getD 0) = true :=
            List.any_eq_true.mpr ⟨room, hmem.1, hmem.2⟩
          by_cases h4 : room.is_active = true
          · have hany2 : store.rooms.any
                (fun r => r.id == body.room_id.getD 0 && r.is_active) = true :=
              List.any_eq_true.mpr ⟨room, hmem.1, by rw [Bool.and_eq_true]; exact ⟨hmem.2, h4⟩⟩
            by_cases h5 : startInstant dayStart (body.start_time.getD ⟨0, 0⟩).hours
                (body.start_time.getD ⟨0, 0⟩).minutes ≤ now
            · simp [submit, specValidationOrder, h1, h2, h3, hc, hone, hany, hany2, h4, h5]
            · by_cases h6 : store.bookings.any (bookingConflict (body.room_id.getD 0)
                  (startInstant dayStart (body.start_time.getD ⟨0, 0⟩).hours
                    (body.start_time.getD ⟨0, 0⟩).minutes)
                  (endInstant (startInstant dayStart (body.start_time.getD ⟨0, 0⟩).hours
                    (body.start_time.getD ⟨0, 0⟩).minutes) (body.duration.getD 0))) = true
              · have hlen := (length_filter_pos_iff_any store.bookings _).mpr h6
                simp [submit, specValidationOrder, h1, h2, h3, hc, hone, hany, hany2, h4, h5,
                  h6, hlen]
              · have hlen : ¬ 0 < (store.bookings.filter (bookingConflict (body.room_id.getD 0)
                    (startInstant dayStart (body.start_time.getD ⟨0, 0⟩).hours
                      (body.start_time.getD ⟨0, 0⟩).minutes)
                    (endInstant (startInstant dayStart (body.start_time.getD ⟨0, 0⟩).hours
                      (body.start_time.getD ⟨0, 0⟩).minutes) (body.duration.getD 0)))).length :=
                  fun hl => h6 ((length_filter_pos_iff_any store.bookings _).mp hl)
                simp [submit, specValidationOrder, h1, h2, h3, hc, hone, hany, hany2, h4, h5,
                  h6, hlen]
          · have hany2 : store.rooms.any
                (fun r => r.id == body.room_id.getD 0 && r.is_active) = false := by
              rw [List.any_eq_false]
              intro x hx hxb
              rw [Bool.and_eq_true] at hxb
              have hxf : x ∈ store.rooms.filter (fun r => r.id == body.room_id.getD 0) :=
                List.mem_filter.mpr ⟨hx, hxb.1⟩
              rw [hone, List.mem_singleton] at hxf
              subst hxf
              exact h4 hxb.2
            simp [submit, specValidationOrder, h1, h2, h3, hc, hone, hany, hany2, h4]
      · have hcd : body.duration.getD 0 < 30 ∨ body.duration.getD 0 > 120 := by omega
        simp [submit, specValidationOrder, h1, h2, h3, hcd]
    · simp [submit, specValidationOrder, h1, h2]

/-- C5, witness: the claim's own example, an input failing both the
student-id rule (5 digits) and the duration rule (10 minutes), is
rejected with the earlier rule's reason, InvalidStudentId. -/
theorem c5_witness :
    (submit emptyStore 0 0 bodyBad).1 = SubmitOutcome.invalidStudentId :=
  (c5_first_failing_rule emptyStore 0 0 bodyBad (by decide)).trans (by decide)


/-- C3, counterexample: two stores that agree on every field except the
student id of one in-window booking produce different
`getRoomSchedules` response bodies, so the schedule view does depend on
(and therefore leaks) `student_id`. -/
theorem c3_counterexample :
    storeTouch.rooms = storeLeak.rooms ∧
    storeTouch.bookings.map (fun b => (b.room_id, b.start_time, b.end_time)) =
      storeLeak.bookings.map (fun b => (b.room_id, b.start_time, b.end_time)) ∧
    getRoomSchedules storeTouch 0 ≠ getRoomSchedules storeLeak 0 := by
  decide

/-- C3, amended: each room entry of the `getRoomSchedules` response
lists exactly the in-window bookings of that room, each carrying its
stored `student_id` copied verbatim by `toSchedBooking` — the field is
included in, not omitted from, the response body. -/
theorem c3_schedule_includes_student_id (store : Store) (dayStart : Nat)
    (e : RoomSchedule) (he : e ∈ (getRoomSchedules store dayStart).rooms) :
    e.bookings = ((windowBookings store dayStart).filter
      (fun b => b.room_id == e.id)).map toSchedBooking := by
  simp only [getRoomSchedules, List.mem_map] at he
  obtain ⟨room, hroom, hre⟩ := he
  subst hre
  exact lookupRoom_groupByRoom (windowBookings store dayStart) room.id

/-- C3, witness for the amended theorem: the schedule entry of room 1 in
`storeTouch` carries the stored student id "111111". -/
theorem c3_witness :
    (⟨1, "Room A", [⟨"111111", 36000000, 39600000⟩]⟩ : RoomSchedule).bookings =
      ((windowBookings storeTouch 0).filter
        (fun b => b.room_id == (1 : Nat))).map toSchedBooking :=
  c3_schedule_includes_student_id storeTouch 0
    ⟨1, "Room A", [⟨"111111", 36000000, 39600000⟩]⟩ (by decide)

/-- C7: the `getRooms` response lists rooms in ascending-id order, has
one entry per active room (same multiset cardinality, and every active
room appears with its name), every entry stems from an active room, and
an entry is unavailable exactly when some confirmed booking for that
room contains `now` in its closed interval `start_time ≤ now ≤
end_time`; in particular, at any instant strictly past every booking's
end for a room, the room is marked available. -/
theorem c7_rooms_view (store : Store) (now : Nat) :
    (getRooms store now).Pairwise (fun a b => a.id ≤ b.id) ∧
    (getRooms store now).length = (store.rooms.filter (fun r => r.is_active)).length ∧
    (∀ r ∈ store.rooms, r.is_active = true →
      ∃ e ∈ getRooms store now, e.id = r.id ∧ e.name = r.name) ∧
    (∀ e ∈ getRooms store now,
      (∃ r ∈ store.rooms, r.is_active = true ∧ e.id = r.id ∧ e.name = r.name) ∧
      (e.is_available = false ↔
        ∃ b ∈ store.bookings, b.room_id = e.id ∧ b.start_time ≤ now ∧ now ≤ b.end_time)) := by
  have hperm := List.perm_insertionSort roomLe (store.rooms.filter (fun r => r.is_active))
  refine ⟨?_, ?_, ?_, ?_⟩
  · show ((activeRooms store).map _).Pairwise _
    rw [List.pairwise_map]
    exact List.sorted_insertionSort roomLe _
  · show ((activeRooms store).map _).length = _
    rw [List.length_map]
    exact hperm.length_eq
  · intro r hr hact
    have hmem : r ∈ activeRooms store := by
      unfold activeRooms
      rw [hperm.mem_iff]
      exact List.mem_filter.mpr ⟨hr, hact⟩
    exact ⟨_, List.mem_map_of_mem _ hmem, rfl, rfl⟩
  · intro e he
    simp only [getRooms, List.mem_map] at he
    obtain ⟨r, hr, hre⟩ := he
    have hr2 := List.mem_filter.mp (hperm.mem_iff.mp hr)
    subst hre
    refine ⟨⟨r, hr2.1, hr2.2, rfl, rfl⟩, ?_⟩
    dsimp only
    rw [decide_eq_false_iff_not, not_not, List.elem_iff]
    constructor
    · intro hmem
      rw [List.mem_map] at hmem
      obtain ⟨b, hb, hbid⟩ := hmem
      have hbf := List.mem_filter.mp hb
      rw [Bool.and_eq_true, decide_eq_true_eq, decide_eq_true_eq] at hbf
      exact ⟨b, hbf.1, hbid, hbf.2.2, hbf.2.1⟩
    · rintro ⟨b, hb, hbid, hs, hn⟩
      rw [List.mem_map]
      refine ⟨b, List.mem_filter.mpr ⟨hb, ?_⟩, hbid⟩
      rw [Bool.and_eq_true, decide_eq_true_eq, decide_eq_true_eq]
      exact ⟨hn, hs⟩

/-- C7, witness: at an instant inside `storeTouch`'s one booking, the
active room 1 appears in the `getRooms` response under its name. -/
theorem c7_witness :
    ∃ e ∈ getRooms storeTouch 37000000, e.id = roomA.id ∧ e.name = roomA.name :=
  (c7_rooms_view storeTouch 37000000).2.2.1 roomA (by decide) (by decide)


/-- C8: the outcome of `submit` is invariant under changes to the
pending rows of `booking_requests`: two stores agreeing on rooms,
bookings, the generated id and the non-pending rows yield identical
outcomes, so an overlapping pending request (fetched by the handler but
never branched on) cannot cause a rejection. -/
theorem c8_pending_requests_irrelevant (s1 s2 : Store) (dayStart now : Nat)
    (body : SubmitBody)
    (hrooms : s1.rooms = s2.rooms)
    (hbookings : s1.bookings = s2.bookings)
    (hnext : s1.nextId = s2.nextId)
    (hrest : s1.booking_requests.filter (fun q => q.status != ReqStatus.pending) =
      s2.booking_requests.filter (fun q => q.status != ReqStatus.pending)) :
    (submit s1 dayStart now body).1 = (submit s2 dayStart now body).1 := by
  obtain ⟨r1, b1, q1, n1⟩ := s1
  obtain ⟨r2, b2, q2, n2⟩ := s2
  dsimp only at hrooms hbookings hnext
  subst hrooms
  subst hbookings
  subst hnext
  exact submit_fst_requests_irrelevant r1 b1 q1 q2 n1 dayStart now body

/-- C8, witness: the stores with and without an overlapping pending
request give the same outcome for the overlapping submission `bodyA`. -/
theorem c8_witness :
    (submit emptyStore 0 1 bodyA).1 = (submit storePend 0 1 bodyA).1 :=
  c8_pending_requests_irrelevant emptyStore storePend 0 1 bodyA (by decide)
    (by decide) (by decide) (by decide)

/-- C9: the two read endpoints, seen as store transitions, leave the
store unchanged, and repeating either call on the resulting store with
the same instant returns an identical response. -/
theorem c9_reads_pure (store : Store) (now dayStart : Nat) :
    (getRoomsStep store now).2 = store ∧
    getRoomsStep (getRoomsStep store now).2 now = getRoomsStep store now ∧
    (getRoomSchedulesStep store dayStart).2 = store ∧
    getRoomSchedulesStep (getRoomSchedulesStep store dayStart).2 dayStart =
      getRoomSchedulesStep store dayStart :=
  ⟨rfl, rfl, rfl, rfl⟩


/-- C10: for any non-preflight invocation of the submit handler, a
response with status other than 200 (400 validation failure, 405 wrong
method, 409 conflict) leaves the `booking_requests` table unchanged,
and a 200 response appends exactly one new pending row. -/
theorem c10_persist_iff_200 (method : Method) (store : Store) (dayStart now : Nat)
    (body : SubmitBody) (hm : method ≠ Method.options) :
    (httpStatus (submitHandler method store dayStart now body).1 ≠ 200 →
      (submitHandler method store dayStart now body).2 = store) ∧
    (httpStatus (submitHandler method store dayStart now body).1 = 200 →
      ∃ q : BookingRequest, q.status = ReqStatus.pending ∧
        (submitHandler method store dayStart now body).2 =
          { store with
              booking_requests := store.booking_requests ++ [q],
              nextId := store.nextId + 1 }) := by
  cases method
  case options => exact absurd rfl hm
  case get =>
    exact ⟨fun _ => rfl, fun h => absurd h (by simp [submitHandler, httpStatus])⟩
  case post =>
    rcases submit_cases store dayStart now body with ⟨q, hst, _, _, heq⟩ | ⟨h2, hne⟩
    · constructor
      · intro hne200
        exfalso
        apply hne200
        show statusCode (submit store dayStart now body).1 = 200
        rw [heq]
        rfl
      · intro _
        refine ⟨q, hst, ?_⟩
        show (submit store dayStart now body).2 = _
        rw [heq]
    · constructor
      · intro _
        exact h2
      · intro h200
        exfalso
        have h200s : statusCode (submit store dayStart now body).1 = 200 := h200
        obtain ⟨i, hoki⟩ := (statusCode_eq_200 _).mp h200s
        exact hne i hoki

/-- C10, witness at a concrete POST that succeeds. -/
theorem c10_witness :
    (httpStatus (submitHandler Method.post emptyStore 0 1 bodyA).1 ≠ 200 →
      (submitHandler Method.post emptyStore 0 1 bodyA).2 = emptyStore) ∧
    (httpStatus (submitHandler Method.post emptyStore 0 1 bodyA).1 = 200 →
      ∃ q : BookingRequest, q.status = ReqStatus.pending ∧
        (submitHandler Method.post emptyStore 0 1 bodyA).2 =
          { emptyStore with
              booking_requests := emptyStore.booking_requests ++ [q],
              nextId := emptyStore.nextId + 1 }) :=
  c10_persist_iff_200 Method.post emptyStore 0 1 bodyA (by decide)
